import Mathlib

/-!
Shallow embedding of the InterSearch server (src/server.mjs) and proofs about
its fallback resolution pipeline, result cache and HTTP handlers.

Network effects (node-fetch calls) are modelled as oracle inputs of type
`FetchResult`: the embedding of each adapter is a pure function of the
configuration and of the outcome the upstream service would deliver.
-/

namespace InterSearch

/-- A search item as built by the adapters (server.mjs lines 45-50):
`{ title, snippet, link, source }`. -/
structure SearchItem where
  title : String
  snippet : String
  link : String
  source : String
deriving DecidableEq

/-- The JSON result objects stored in the cache and served by `/search`:
`{source:"primary", results}`, `{source:"google", results}`,
`{source:"openai", answer}` (server.mjs lines 105, 114, 123). -/
inductive SearchResult
  | primaryR (results : List SearchItem)
  | googleR (results : List SearchItem)
  | openaiR (answer : String)
deriving DecidableEq

/-- Whether a result object carries the `primary` source tag. -/
def SearchResult.isPrimary : SearchResult → Bool
  | .primaryR _ => true
  | _ => false

/-- Environment configuration read at startup (server.mjs lines 17-19);
a missing variable defaults to the empty string, which is JS-falsy. -/
structure Config where
  OPENAI_API_KEY : String
  GOOGLE_API_KEY : String
  GOOGLE_CX : String
deriving DecidableEq

/-- Outcome of one `fetch` call, supplied as an oracle: the promise rejects
(`netError`), the response arrives with `res.ok` false (`httpError`, carrying
`res.status` and the body text), or it arrives OK with parsed JSON `data`. -/
inductive FetchResult (α : Type)
  | netError (msg : String)
  | httpError (status : Nat) (text : String)
  | ok (data : α)
deriving DecidableEq

/-- One raw item of the Google customsearch JSON response. -/
structure RawGoogleItem where
  title : String
  snippet : String
  link : String
deriving DecidableEq

/-- Parsed Google customsearch response body: `data.items` may be absent
(server.mjs line 45 reads `data.items || []`). -/
structure GoogleData where
  items : Option (List RawGoogleItem)
deriving DecidableEq

/-- Parsed OpenAI chat-completions response body, collapsed to the one path
the code reads: `data?.choices?.[0]?.message?.content ?? ""` (lines 91, 169).
`content` is `none` whenever any link of that optional chain is missing. -/
structure OpenAIData where
  content : Option String
deriving DecidableEq

/-- JS `String.prototype.trim()`: strip leading and trailing whitespace,
modelled executably over the character list. -/
def jsTrim (s : String) : String :=
  ⟨((s.data.dropWhile Char.isWhitespace).reverse.dropWhile Char.isWhitespace).reverse⟩

/-- server.mjs lines 23-25: `cleanText(t)` returns `(t || "").toString().trim()`;
an absent value is coerced to the empty string, then trimmed. -/
def cleanText (t : Option String) : String := jsTrim (t.getD "")

/-- server.mjs lines 27-30: the primary index adapter is a stub that always
returns the empty item list (comment in source: "Replace with your local
DB/vector search later"). -/
def primarySearch (q : String) : List SearchItem := []

/-- The query parameters set on the customsearch URL (server.mjs lines 36-40),
including the requested result count `num=5`. -/
def googleRequestParams (cfg : Config) (q : String) : List (String × String) :=
  [("key", cfg.GOOGLE_API_KEY), ("cx", cfg.GOOGLE_CX), ("q", q), ("num", "5")]

/-- server.mjs lines 32-51 (`googleSearch`): throws when the key or cx is
missing (JS-falsy, i.e. empty), throws on a rejected fetch or a non-ok
response, and otherwise maps every element of `data.items || []` to a
`SearchItem` tagged `"google"`. Note: the code requests `num=5` but performs
no truncation of its own on the response items. -/
def googleSearch (cfg : Config) (fetched : FetchResult GoogleData) :
    Except String (List SearchItem) :=
  if cfg.GOOGLE_API_KEY = "" ∨ cfg.GOOGLE_CX = "" then
    .error "Google API key or CX not configured."
  else
    match fetched with
    | .netError m => .error m
    | .httpError status _ => .error ("Google API error " ++ toString status)
    | .ok data =>
      .ok ((data.items.getD []).map fun it =>
        { title := it.title, snippet := it.snippet, link := it.link, source := "google" })

/-- A chat message as assembled for the OpenAI request. -/
structure ChatMessage where
  role : String
  content : String
deriving DecidableEq

/-- server.mjs lines 56-67: the message list sent by `openaiChatAnswer` — a
fixed system prompt, one system message per context item, then the user query. -/
def chatMessages (q : String) (context : List SearchItem) : List ChatMessage :=
  ({ role := "system",
     content := "You are \"I\", an assistant that gives clear, factual answers using provided context when possible." } ::
   context.map fun c =>
     { role := "system", content := "Context: " ++ c.title ++ "\n" ++ c.snippet ++ "\n" ++ c.link }) ++
  [{ role := "user", content := q }]

/-- Success value of `openaiChatAnswer` (server.mjs line 92):
`{ text: cleanText(text), raw: data }`. -/
structure AIAnswer where
  text : String
  raw : OpenAIData
deriving DecidableEq

/-- server.mjs lines 53-93 (`openaiChatAnswer`): throws when the OpenAI key is
missing (JS-falsy, i.e. empty), throws on a rejected fetch or non-ok response
(`OpenAI error ${status}: ${text}`), and on an OK response succeeds with
`cleanText(data?.choices?.[0]?.message?.content ?? "")` — a response body
lacking the expected shape is coerced to the empty string, not rejected.
The message list built from `q` and `context` (see `chatMessages`) only
shapes the upstream request, whose outcome is the `fetched` oracle. -/
def openaiChatAnswer (cfg : Config) (fetched : FetchResult OpenAIData)
    (q : String) (context : List SearchItem) : Except String AIAnswer :=
  if cfg.OPENAI_API_KEY = "" then .error "OPENAI_API_KEY not set."
  else
    match fetched with
    | .netError m => .error m
    | .httpError status txt => .error ("OpenAI error " ++ toString status ++ ": " ++ txt)
    | .ok data => .ok { text := cleanText (some (data.content.getD "")), raw := data }

/-- Cache capacity bound (server.mjs line 21: `max: 500`). -/
def CACHE_MAX : Nat := 500

/-- Cache entry time-to-live in milliseconds (server.mjs line 21:
`ttl: 1000 * 60 * 5`). -/
def CACHE_TTL : Nat := 1000 * 60 * 5

/-- The lru-cache instance of server.mjs line 21, modelled as a list of
`(key, value, insertion time)` triples ordered most-recently-used first.
At most one entry per key. -/
structure Cache where
  entries : List (String × SearchResult × Nat)
deriving DecidableEq

/-- Value of a live (non-stale) entry for `k` at time `now`: present iff the
entry exists and its age does not exceed the TTL. Backs both `cache.has` and
`cache.get` of the source, which are called back to back with the same key. -/
def Cache.lookup (c : Cache) (now : Nat) (k : String) : Option SearchResult :=
  match c.entries.find? fun e => e.1 == k with
  | some e => if now ≤ e.2.2 + CACHE_TTL then some e.2.1 else none
  | none => none

/-- Recency refresh performed by `cache.get` on a hit: the entry for `k`
moves to the most-recently-used position. -/
def Cache.touch (c : Cache) (k : String) : Cache :=
  match c.entries.find? fun e => e.1 == k with
  | some e => ⟨e :: c.entries.filter fun x => x.1 != k⟩
  | none => c

/-- `cache.set(q, result)`: insert or replace the entry for `k` with the
current timestamp at the most-recently-used position, evicting from the
least-recently-used end when the capacity bound is exceeded. -/
def Cache.set (c : Cache) (now : Nat) (k : String) (v : SearchResult) : Cache :=
  ⟨((k, v, now) :: c.entries.filter fun x => x.1 != k).take CACHE_MAX⟩

/-- Modelled from the spec: the Primary Index Adapter "queries a local/primary
index (implementation external to this core — may legitimately return an empty
item sequence)". The shipped `primarySearch` stub (server.mjs lines 27-30)
always returns the empty list, so the external index's answer for the query is
supplied here as an oracle field, alongside the two fetch oracles. -/
structure SearchEnv where
  primaryResult : List SearchItem
  googleFetch : FetchResult GoogleData
  openaiFetch : FetchResult OpenAIData
deriving DecidableEq

/-- Which adapters a request invoked, with the arguments that matter:
`openai` records the `context` (prior items) it was called with. -/
inductive AdapterCall
  | primary (q : String)
  | google (q : String)
  | openai (q : String) (context : List SearchItem)
deriving DecidableEq

/-- Response of the `/search` handler: 200 with a result body (the `cached`
flag records the `cached: true` field added on a cache hit, line 101),
400 for a missing query (line 99), or 500 with the error message (line 128). -/
inductive Response
  | ok (body : SearchResult) (cached : Bool)
  | badRequest (error : String)
  | serverError (error : String)
deriving DecidableEq

/-- server.mjs line 98: `(req.query.q || "").trim()` — an absent query
parameter is coerced to the empty string, then trimmed. -/
def normQuery (qraw : Option String) : String := jsTrim (qraw.getD "")

/-- server.mjs lines 96-130, the `GET /search` handler:
reject an empty-after-trim query with 400; serve a live cache entry with
`cached: true`; otherwise run the fallback chain — primary index (short
circuit on non-empty), then `googleSearch` (failure absorbed by the inner
try/catch at lines 111-120, leaving `googleResults = []`; non-empty success
short-circuits), then `openaiChatAnswer` with the accumulated
`googleResults` as context, whose failure reaches the outer catch as a 500.
Each success on the fallback chain stores its result object in the cache.
Returns the response, the resulting cache state, and the list of adapter
invocations performed. -/
def searchHandler (cfg : Config) (env : SearchEnv) (now : Nat) (c : Cache)
    (qraw : Option String) : Response × Cache × List AdapterCall :=
  if normQuery qraw = "" then (.badRequest "Missing ?q=", c, [])
  else
    match c.lookup now (normQuery qraw) with
    | some v => (.ok v true, c.touch (normQuery qraw), [])
    | none =>
      if env.primaryResult.length ≠ 0 then
        (.ok (.primaryR env.primaryResult) false,
         c.set now (normQuery qraw) (.primaryR env.primaryResult),
         [.primary (normQuery qraw)])
      else
        match googleSearch cfg env.googleFetch with
        | .ok gs =>
          if gs.length ≠ 0 then
            (.ok (.googleR gs) false, c.set now (normQuery qraw) (.googleR gs),
             [.primary (normQuery qraw), .google (normQuery qraw)])
          else
            match openaiChatAnswer cfg env.openaiFetch (normQuery qraw) gs with
            | .ok ai =>
              (.ok (.openaiR ai.text) false,
               c.set now (normQuery qraw) (.openaiR ai.text),
               [.primary (normQuery qraw), .google (normQuery qraw),
                .openai (normQuery qraw) gs])
            | .error e =>
              (.serverError e, c,
               [.primary (normQuery qraw), .google (normQuery qraw),
                .openai (normQuery qraw) gs])
        | .error _ =>
          match openaiChatAnswer cfg env.openaiFetch (normQuery qraw) [] with
          | .ok ai =>
            (.ok (.openaiR ai.text) false,
             c.set now (normQuery qraw) (.openaiR ai.text),
             [.primary (normQuery qraw), .google (normQuery qraw),
              .openai (normQuery qraw) []])
          | .error e =>
            (.serverError e, c,
             [.primary (normQuery qraw), .google (normQuery qraw),
              .openai (normQuery qraw) []])

/-- Response of the `POST /ai` handler: 200 `{assistant, reply}` (line 170),
400 for a missing prompt (line 136), or 500 with the error message (line 173). -/
inductive AiResponse
  | ok (assistant : String) (reply : String)
  | badRequest (error : String)
  | serverError (error : String)
deriving DecidableEq

/-- server.mjs lines 138-145: the message list the `/ai` handler sends — its
own fixed system prompt (different text from `chatMessages`) and the user
prompt; no context messages. -/
def aiMessages (prompt : String) : List ChatMessage :=
  [{ role := "system",
     content := "You are \"I\", an intelligent assistant similar to ChatGPT. Be accurate, clear, and safe." },
   { role := "user", content := prompt }]

/-- server.mjs lines 133-175, the `POST /ai` handler: reject an
empty-after-clean prompt with 400, then issue the chat-completions fetch
directly — with no check that `OPENAI_API_KEY` is set — and answer 200 with
`cleanText` of the response content, or 500 via the catch on a rejected fetch
or non-ok response. The boolean records whether the upstream call was made. -/
def aiHandler (cfg : Config) (fetched : FetchResult OpenAIData)
    (promptRaw : Option String) : AiResponse × Bool :=
  if cleanText promptRaw = "" then (.badRequest "prompt required", false)
  else
    match fetched with
    | .netError m => (.serverError m, true)
    | .httpError status txt =>
      (.serverError ("OpenAI error " ++ toString status ++ ": " ++ txt), true)
    | .ok data => (.ok "I" (cleanText (some (data.content.getD ""))), true)

/-- Spec-side composition for `POST /ai`, written from the spec's words:
"bypasses the fallback chain and calls the Generative Answer Adapter directly
with no prior context → 200 `{assistant: "I", reply}` … 500 on adapter
failure". Used to compare the handler against a direct adapter invocation. -/
def aiViaAdapter (cfg : Config) (fetched : FetchResult OpenAIData)
    (prompt : String) : AiResponse :=
  match openaiChatAnswer cfg fetched prompt [] with
  | .ok a => .ok "I" a.text
  | .error e => .serverError e

/-! ### Helper lemmas -/

/-- An entry just stored is found live as long as no more than the TTL has
elapsed since the store. -/
theorem Cache.lookup_set_self (c : Cache) (now t : Nat) (k : String)
    (v : SearchResult) (h : t ≤ now + CACHE_TTL) :
    (c.set now k v).lookup t k = some v := by
  unfold Cache.set Cache.lookup
  rw [show CACHE_MAX = 499 + 1 from rfl, List.take_succ_cons]
  simp [List.find?_cons_of_pos, h]

/-- A fresh (non-cache-hit) 200 response comes with the result stored in the
cache under the normalized query, and the query was non-empty after trim. -/
theorem searchHandler_fresh_ok (cfg : Config) (env : SearchEnv) (now : Nat)
    (c : Cache) (qraw : Option String) (body : SearchResult) (c' : Cache)
    (calls : List AdapterCall)
    (h : searchHandler cfg env now c qraw = (.ok body false, c', calls)) :
    c' = c.set now (normQuery qraw) body ∧ normQuery qraw ≠ "" := by
  unfold searchHandler at h
  split at h
  · cases h
  · rename_i hq
    refine ⟨?_, hq⟩
    split at h
    · cases h
    · split at h
      · simp only [Prod.mk.injEq, Response.ok.injEq] at h
        rw [← h.2.1, h.1.1]
      · split at h
        · split at h
          · simp only [Prod.mk.injEq, Response.ok.injEq] at h
            rw [← h.2.1, h.1.1]
          · split at h
            · simp only [Prod.mk.injEq, Response.ok.injEq] at h
              rw [← h.2.1, h.1.1]
            · cases h
        · split at h
          · simp only [Prod.mk.injEq, Response.ok.injEq] at h
            rw [← h.2.1, h.1.1]
          · cases h

/-! ### Concrete fixtures for witnesses and counterexamples -/

/-- A configuration with all three credentials present. -/
def cfgFull : Config :=
  { OPENAI_API_KEY := "sk-test", GOOGLE_API_KEY := "gk", GOOGLE_CX := "cx" }

/-- A configuration with every credential missing (empty, JS-falsy). -/
def cfgEmpty : Config :=
  { OPENAI_API_KEY := "", GOOGLE_API_KEY := "", GOOGLE_CX := "" }

/-- A raw web result item. -/
def rawParis : RawGoogleItem :=
  { title := "Paris", snippet := "Paris is the capital", link := "https://w" }

/-- `rawParis` as mapped by `googleSearch`. -/
def itemParis : SearchItem :=
  { title := "Paris", snippet := "Paris is the capital", link := "https://w",
    source := "google" }

/-- A well-shaped OpenAI response body. -/
def answerData : OpenAIData := { content := some "Paris." }

/-- The cache at process start. -/
def emptyCache : Cache := ⟨[]⟩

/-! ### Claims -/

/-- C1: for every query where the primary index returns an empty sequence and
the web-search adapter fails with any error, the failure is absorbed and, if
the generative adapter then succeeds, the resolution returns the generated
outcome as a plain 200 (no `cached` flag, no failure), storing it in the
cache. -/
theorem c1_web_failure_absorbed (cfg : Config) (env : SearchEnv) (now : Nat)
    (c : Cache) (qraw : Option String) (e : String) (a : AIAnswer)
    (hq : normQuery qraw ≠ "")
    (hmiss : c.lookup now (normQuery qraw) = none)
    (hprimary : env.primaryResult = [])
    (hweb : googleSearch cfg env.googleFetch = .error e)
    (hai : openaiChatAnswer cfg env.openaiFetch (normQuery qraw) [] = .ok a) :
    searchHandler cfg env now c qraw =
      (.ok (.openaiR a.text) false,
       c.set now (normQuery qraw) (.openaiR a.text),
       [.primary (normQuery qraw), .google (normQuery qraw),
        .openai (normQuery qraw) []]) := by
  unfold searchHandler
  rw [if_neg hq, hmiss, hprimary, hweb]
  simp [hai]

/-- Witness for C1 at a concrete input: web search fails with a network
error, the generative adapter succeeds, and the request resolves to the
generated answer. -/
theorem c1_web_failure_absorbed_witness :
    searchHandler cfgFull ⟨[], .netError "boom", .ok answerData⟩ 0 emptyCache
      (some "paris") =
      (.ok (.openaiR "Paris.") false,
       emptyCache.set 0 "paris" (.openaiR "Paris."),
       [.primary "paris", .google "paris", .openai "paris" []]) :=
  c1_web_failure_absorbed cfgFull ⟨[], .netError "boom", .ok answerData⟩ 0
    emptyCache (some "paris") "boom" { text := "Paris.", raw := answerData }
    (by decide) rfl rfl rfl rfl

/-- C2: whenever the primary index is empty and web search either fails or
succeeds empty, the generative adapter is invoked — never skipped — with
prior context equal to the web adapter's item sequence (the empty sequence
when web search failed): the request's adapter-call trace is exactly
primary, then google, then openai with the empty context. -/
theorem c2_generative_always_invoked (cfg : Config) (env : SearchEnv)
    (now : Nat) (c : Cache) (qraw : Option String)
    (hq : normQuery qraw ≠ "")
    (hmiss : c.lookup now (normQuery qraw) = none)
    (hprimary : env.primaryResult = [])
    (hweb : (∃ e, googleSearch cfg env.googleFetch = .error e) ∨
            googleSearch cfg env.googleFetch = .ok []) :
    (searchHandler cfg env now c qraw).2.2 =
      [.primary (normQuery qraw), .google (normQuery qraw),
       .openai (normQuery qraw) []] := by
  unfold searchHandler
  rw [if_neg hq, hmiss, hprimary]
  rcases hweb with ⟨e, hweb⟩ | hweb <;> rw [hweb] <;>
    rcases h2 : openaiChatAnswer cfg env.openaiFetch (normQuery qraw) [] with e2 | a2 <;>
      simp [h2]

/-- Witness for C2 at a concrete input: web search succeeds with an empty
item list and the generative adapter is still invoked with that empty
context. -/
theorem c2_generative_always_invoked_witness :
    (searchHandler cfgFull ⟨[], .ok ⟨some []⟩, .ok answerData⟩ 0 emptyCache
      (some "q1")).2.2 =
      [.primary "q1", .google "q1", .openai "q1" []] :=
  c2_generative_always_invoked cfgFull ⟨[], .ok ⟨some []⟩, .ok answerData⟩ 0
    emptyCache (some "q1") (by decide) rfl rfl (Or.inr rfl)

/-- C3: whenever the primary index returns a non-empty item sequence, the
resolution short-circuits — it returns that sequence as the primary result
object, stores it in the cache, and invokes neither the web-search nor the
generative adapter. -/
theorem c3_primary_short_circuit (cfg : Config) (env : SearchEnv) (now : Nat)
    (c : Cache) (qraw : Option String)
    (hq : normQuery qraw ≠ "")
    (hmiss : c.lookup now (normQuery qraw) = none)
    (hne : env.primaryResult.length ≠ 0) :
    searchHandler cfg env now c qraw =
      (.ok (.primaryR env.primaryResult) false,
       c.set now (normQuery qraw) (.primaryR env.primaryResult),
       [.primary (normQuery qraw)]) := by
  unfold searchHandler
  rw [if_neg hq, hmiss, if_pos hne]

/-- Witness for C3 at a concrete input: a one-item primary result is served
as the primary outcome and stored, with neither other adapter invoked. -/
theorem c3_primary_short_circuit_witness :
    searchHandler cfgFull ⟨[itemParis], .netError "x", .ok answerData⟩ 0
      emptyCache (some "q2") =
      (.ok (.primaryR [itemParis]) false,
       emptyCache.set 0 "q2" (.primaryR [itemParis]),
       [.primary "q2"]) :=
  c3_primary_short_circuit cfgFull ⟨[itemParis], .netError "x", .ok answerData⟩
    0 emptyCache (some "q2") (by decide) rfl (by decide)

/-- C5: whenever the fallback chain reaches the generative adapter (primary
empty, web failed or empty) and the generative adapter fails, the resolution
fails with a 500 carrying that adapter's error message, and the cache is
returned unchanged — nothing is written by a failed resolution. -/
theorem c5_terminal_failure_propagates (cfg : Config) (env : SearchEnv)
    (now : Nat) (c : Cache) (qraw : Option String) (e : String)
    (hq : normQuery qraw ≠ "")
    (hmiss : c.lookup now (normQuery qraw) = none)
    (hprimary : env.primaryResult = [])
    (hweb : (∃ ge, googleSearch cfg env.googleFetch = .error ge) ∨
            googleSearch cfg env.googleFetch = .ok [])
    (hai : openaiChatAnswer cfg env.openaiFetch (normQuery qraw) [] = .error e) :
    searchHandler cfg env now c qraw =
      (.serverError e, c,
       [.primary (normQuery qraw), .google (normQuery qraw),
        .openai (normQuery qraw) []]) := by
  unfold searchHandler
  rw [if_neg hq, hmiss, hprimary]
  rcases hweb with ⟨ge, hweb⟩ | hweb <;> rw [hweb] <;> simp [hai]

/-- Witness for C5 at a concrete input: with no credentials configured, web
search fails, the generative adapter fails with its NotConfigured message,
and the request answers 500 with that message, leaving the cache empty. -/
theorem c5_terminal_failure_propagates_witness :
    searchHandler cfgEmpty ⟨[], .ok ⟨some []⟩, .ok answerData⟩ 0 emptyCache
      (some "q3") =
      (.serverError "OPENAI_API_KEY not set.", emptyCache,
       [.primary "q3", .google "q3", .openai "q3" []]) :=
  c5_terminal_failure_propagates cfgEmpty ⟨[], .ok ⟨some []⟩, .ok answerData⟩ 0
    emptyCache (some "q3") "OPENAI_API_KEY not set." (by decide) rfl rfl
    (Or.inl ⟨"Google API key or CX not configured.", rfl⟩) rfl

/-- C4: after a first call resolved a query freshly (no `cached` flag) and
stored its outcome, a second call for the same raw query within the TTL
window — and with no other cache activity in between — returns the identical
result body, additionally flagged `cached: true`, and performs no adapter
invocations at all (any configuration and any upstream behaviour on the
second call are irrelevant). -/
theorem c4_cache_hit_identical (cfg₁ cfg₂ : Config) (env₁ env₂ : SearchEnv)
    (t₁ t₂ : Nat) (c : Cache) (qraw : Option String) (body : SearchResult)
    (c₁ : Cache) (calls₁ : List AdapterCall)
    (h1 : searchHandler cfg₁ env₁ t₁ c qraw = (.ok body false, c₁, calls₁))
    (h2 : t₂ ≤ t₁ + CACHE_TTL) :
    searchHandler cfg₂ env₂ t₂ c₁ qraw =
      (.ok body true, c₁.touch (normQuery qraw), []) := by
  obtain ⟨hc, hq⟩ := searchHandler_fresh_ok cfg₁ env₁ t₁ c qraw body c₁ calls₁ h1
  subst hc
  unfold searchHandler
  rw [if_neg hq, Cache.lookup_set_self c t₁ t₂ (normQuery qraw) body h2]

/-- Witness for C4 at a concrete input: the first call resolves via web
search and stores the result; a repeat call 100ms later — even with no
credentials and a failing upstream — serves the identical body with
`cached: true` and performs no adapter calls. -/
theorem c4_cache_hit_identical_witness :
    searchHandler cfgEmpty ⟨[], .netError "n", .netError "n"⟩ 100
      (emptyCache.set 0 "q4" (.googleR [itemParis])) (some "q4") =
      (.ok (.googleR [itemParis]) true,
       (emptyCache.set 0 "q4" (.googleR [itemParis])).touch "q4", []) :=
  c4_cache_hit_identical cfgFull cfgEmpty
    ⟨[], .ok ⟨some [rawParis]⟩, .netError "n"⟩
    ⟨[], .netError "n", .netError "n"⟩ 0 100 emptyCache (some "q4")
    (.googleR [itemParis]) (emptyCache.set 0 "q4" (.googleR [itemParis]))
    [.primary "q4", .google "q4"] rfl (by decide)

/-- Six raw items, as a large upstream response. -/
def rawSix : List RawGoogleItem :=
  [rawParis, rawParis, rawParis, rawParis, rawParis, rawParis]

/-- C6 counterexample: `googleSearch` requests `num=5` from the upstream but
performs no truncation of its own, so a (contract-violating or changed)
upstream response with six items yields a successful result of six
items — the adapter itself does not guarantee the 5-item bound. -/
theorem c6_counterexample :
    (googleSearch cfgFull (.ok ⟨some rawSix⟩)).map List.length = .ok 6 := rfl

/-- C6 amended: every successful web-search result maps exactly the items of
the upstream response, tagging each with the `"google"` source tag; the
5-item bound is delegated to the upstream via the `num=5` request parameter
(the result has at most 5 items only in so far as the upstream honours it,
since the item count equals the upstream response's item count). -/
theorem c6_web_results_tagged (cfg : Config) (f : FetchResult GoogleData)
    (items : List SearchItem) (h : googleSearch cfg f = .ok items) :
    (∀ it ∈ items, it.source = "google") ∧
    (∀ q, ("num", "5") ∈ googleRequestParams cfg q) ∧
    ∀ data, f = .ok data → items.length = (data.items.getD []).length := by
  unfold googleSearch at h
  split at h
  · cases h
  · cases f with
    | netError m => cases h
    | httpError status text => cases h
    | ok data =>
      simp only [Except.ok.injEq] at h
      subst h
      refine ⟨?_, ?_, ?_⟩
      · intro it hit
        simp only [List.mem_map] at hit
        obtain ⟨r, -, rfl⟩ := hit
        rfl
      · intro q
        simp [googleRequestParams]
      · intro d hd
        cases hd
        simp

/-- Witness for C6's amended theorem at a concrete input: a one-item
upstream response maps to one item tagged `"google"`. -/
theorem c6_web_results_tagged_witness :
    (∀ it ∈ [itemParis], it.source = "google") ∧
    (∀ q, ("num", "5") ∈ googleRequestParams cfgFull q) ∧
    ∀ data, (FetchResult.ok ⟨some [rawParis]⟩ : FetchResult GoogleData) = .ok data →
      ([itemParis] : List SearchItem).length = (data.items.getD []).length :=
  c6_web_results_tagged cfgFull (.ok ⟨some [rawParis]⟩) [itemParis] rfl

/-- C7 counterexample: with the key configured, a 200 upstream response whose
body lacks the expected shape (`content` chain missing) makes
`openaiChatAnswer` *succeed* with an empty answer text — not fail — because
the code coerces the missing content with `?? ""`. -/
theorem c7_counterexample :
    openaiChatAnswer cfgFull (.ok ⟨none⟩) "what" [] =
      .ok { text := "", raw := ⟨none⟩ } := rfl

/-- C7 amended: every invocation of the generative adapter yields exactly one
of a success or a failure; however an OK upstream response that cannot be
interpreted in the expected shape is an *empty success* (answer text `""`),
not a failure. -/
theorem c7_generative_no_empty_failure (cfg : Config)
    (f : FetchResult OpenAIData) (q : String) (ctx : List SearchItem) :
    ((∃ a, openaiChatAnswer cfg f q ctx = .ok a) ↔
      ¬ ∃ e, openaiChatAnswer cfg f q ctx = .error e) ∧
    (cfg.OPENAI_API_KEY ≠ "" →
      openaiChatAnswer cfg (.ok ⟨none⟩) q ctx = .ok { text := "", raw := ⟨none⟩ }) := by
  constructor
  · rcases h : openaiChatAnswer cfg f q ctx with e | a
    · simp [h]
    · simp [h]
  · intro hkey
    unfold openaiChatAnswer
    rw [if_neg hkey]
    rfl

/-- Witness for C7's amended theorem at a concrete input: with the key set
and an ill-shaped OK response, the adapter succeeds with answer text `""`. -/
theorem c7_generative_no_empty_failure_witness :
    openaiChatAnswer cfgFull (.ok ⟨none⟩) "w" [] =
      .ok { text := "", raw := ⟨none⟩ } :=
  (c7_generative_no_empty_failure cfgFull (.ok ⟨none⟩) "w" []).2 (by decide)

/-- C8 counterexample: with no credential configured and a (hypothetically)
OK upstream response, the `/ai` handler succeeds — it never performs the
local key check — while a direct invocation of the generative adapter on the
same inputs fails with its NotConfigured error. The handler is therefore not
equivalent to a direct adapter invocation when the credential is missing. -/
theorem c8_counterexample :
    aiHandler cfgEmpty (.ok ⟨some "hello"⟩) (some "hi") = (.ok "I" "hello", true) ∧
    aiViaAdapter cfgEmpty (.ok ⟨some "hello"⟩) "hi" =
      .serverError "OPENAI_API_KEY not set." :=
  ⟨rfl, rfl⟩

/-- C8 amended: for every non-empty prompt the `/ai` handler always issues
the upstream call, and — whenever the generative-provider credential is
configured — it behaves exactly as invoking the generative adapter directly
with empty prior context (same success reply, same failure). With the
credential missing it performs no local NotConfigured check: the upstream
call is still made and only the upstream outcome decides the response. -/
theorem c8_ai_refines_adapter (cfg : Config) (f : FetchResult OpenAIData)
    (praw : Option String) (hp : cleanText praw ≠ "") :
    (aiHandler cfg f praw).2 = true ∧
    (cfg.OPENAI_API_KEY ≠ "" →
      aiHandler cfg f praw = (aiViaAdapter cfg f (cleanText praw), true)) := by
  constructor
  · unfold aiHandler
    rw [if_neg hp]
    cases f <;> rfl
  · intro hkey
    unfold aiHandler aiViaAdapter openaiChatAnswer
    rw [if_neg hp, if_neg hkey]
    cases f <;> rfl

/-- Witness for C8's amended theorem at a concrete input: with the key
configured, the handler's answer coincides with the direct adapter
invocation's. -/
theorem c8_ai_refines_adapter_witness :
    (aiHandler cfgFull (.ok ⟨some "hello"⟩) (some "hi")).2 = true ∧
    aiHandler cfgFull (.ok ⟨some "hello"⟩) (some "hi") =
      (aiViaAdapter cfgFull (.ok ⟨some "hello"⟩) (cleanText (some "hi")), true) :=
  ⟨(c8_ai_refines_adapter cfgFull (.ok ⟨some "hello"⟩) (some "hi") (by decide)).1,
   (c8_ai_refines_adapter cfgFull (.ok ⟨some "hello"⟩) (some "hi") (by decide)).2
     (by decide)⟩

/-- C9: a `/search` request whose query is missing or trims to the empty
string, and an `/ai` request whose prompt is missing or cleans to the empty
string, are answered 400 before anything else happens: no adapter is
invoked (empty call trace, no upstream call) and the cache is left exactly
as it was. -/
theorem c9_empty_input_rejected (cfg : Config) (env : SearchEnv) (now : Nat)
    (c : Cache) (qraw praw : Option String) (f : FetchResult OpenAIData)
    (hq : normQuery qraw = "") (hp : cleanText praw = "") :
    searchHandler cfg env now c qraw = (.badRequest "Missing ?q=", c, []) ∧
    aiHandler cfg f praw = (.badRequest "prompt required", false) := by
  constructor
  · unfold searchHandler
    rw [if_pos hq]
  · unfold aiHandler
    rw [if_pos hp]

/-- Witness for C9 at concrete inputs: an absent query and a
whitespace-only prompt are both rejected with 400. -/
theorem c9_empty_input_rejected_witness :
    searchHandler cfgFull ⟨[], .netError "n", .netError "n"⟩ 0 emptyCache none =
      (.badRequest "Missing ?q=", emptyCache, []) ∧
    aiHandler cfgFull (.netError "n") (some "  ") =
      (.badRequest "prompt required", false) :=
  c9_empty_input_rejected cfgFull ⟨[], .netError "n", .netError "n"⟩ 0
    emptyCache none (some "  ") (.netError "n") (by decide) (by decide)

/-- C10: the shipped primary index adapter is a stub returning the empty
sequence for every query, so when the handler is run with the stub's answer
(as the source wires it), no fresh resolution ever yields a primary result
object — every freshly resolved 200 body is a web or generated outcome. -/
theorem c10_primary_stub_never_resolves :
    (∀ q, primarySearch q = []) ∧
    ∀ cfg env now c qraw body c' calls,
      env.primaryResult = primarySearch (normQuery qraw) →
      searchHandler cfg env now c qraw = (.ok body false, c', calls) →
      body.isPrimary = false := by
  refine ⟨fun q => rfl, ?_⟩
  intro cfg env now c qraw body c' calls hstub h
  unfold searchHandler at h
  split at h
  · cases h
  · split at h
    · cases h
    · rw [hstub] at h
      rw [if_neg (fun hh => hh rfl : ¬(primarySearch (normQuery qraw)).length ≠ 0)] at h
      split at h
      · split at h
        · simp only [Prod.mk.injEq, Response.ok.injEq] at h
          rw [← h.1.1]
          rfl
        · split at h
          · simp only [Prod.mk.injEq, Response.ok.injEq] at h
            rw [← h.1.1]
            rfl
          · cases h
      · split at h
        · simp only [Prod.mk.injEq, Response.ok.injEq] at h
          rw [← h.1.1]
          rfl
        · cases h

/-- Witness for C10 at a concrete input: a resolution served by web search
yields a non-primary body. -/
theorem c10_primary_stub_never_resolves_witness :
    SearchResult.isPrimary (.googleR [itemParis]) = false :=
  c10_primary_stub_never_resolves.2 cfgFull
    ⟨[], .ok ⟨some [rawParis]⟩, .netError "n"⟩ 0 emptyCache (some "q5")
    (.googleR [itemParis]) (emptyCache.set 0 "q5" (.googleR [itemParis]))
    [.primary "q5", .google "q5"] rfl rfl

end InterSearch
